import Mathlib

/-!
Verification of the connection layer of the yojimbo networking library
against its specification.

The embedding follows the two source files:
  * src/yojimbo_connection.cpp — ConnectionPacket, Connection (the active,
    compiled code; the `#if 0` block at the end of the file is dead code and
    is not part of the embedding).
  * src/yojimbo_message.h — Message, BlockMessage, MessageFactory.

Components that the connection code calls but whose sources are not in the
repository snapshot (bit streams, channels, allocator, the conservative
header-size constants from yojimbo_config.h) are modelled from the
specification; each such definition carries a doc comment starting with
`Modelled from the spec:`.
-/

set_option autoImplicit false

namespace Yojimbo

/-! ## Message reference counting (src/yojimbo_message.h) -/

/-- From src/yojimbo_message.h line 36: the `Message` constructor initializes
`m_refCount(1)`. -/
def Message.initialRefCount : Int := 1

/-- From src/yojimbo_message.h line 58 (`Message::AddRef`), called by
`MessageFactory::AddRef` (line 198): increments the reference count by one. -/
def MessageFactory.addRefCount (rc : Int) : Int := rc + 1

/-- From src/yojimbo_message.h lines 205-222 (`MessageFactory::Release`):
decrements the reference count; the second component records whether the
message is deallocated, which happens exactly when the count reaches zero. -/
def MessageFactory.releaseCount (rc : Int) : Int × Bool :=
  (rc - 1, decide (rc - 1 = 0))

/-- The observable lifecycle state of one message: alive with a reference
count, or deallocated. -/
inductive MsgState
  | alive (refCount : Int)
  | freed
deriving DecidableEq, Repr

/-- One factory operation applied to a message. -/
inductive RefOp
  | addRef
  | release
deriving DecidableEq, Repr

/-- One step of the message lifecycle, following `MessageFactory::AddRef` and
`MessageFactory::Release` from src/yojimbo_message.h. -/
def MsgState.step : MsgState → RefOp → MsgState
  | .alive rc, .addRef => .alive (MessageFactory.addRefCount rc)
  | .alive rc, .release =>
    let r := MessageFactory.releaseCount rc
    if r.2 then .freed else .alive r.1
  | .freed, _ => .freed

/-- Net effect of one operation on the reference count. -/
def RefOp.delta : RefOp → Int
  | .addRef => 1
  | .release => -1

/-- Net effect of a list of operations on the reference count. -/
def refDelta : List RefOp → Int
  | [] => 0
  | op :: rest => op.delta + refDelta rest

/-- The lifecycle state of a message after `MessageFactory::Create`
(reference count one, src/yojimbo_message.h line 36) followed by the given
sequence of `AddRef` and `Release` calls. -/
def runRefOps (ops : List RefOp) : MsgState :=
  ops.foldl MsgState.step (.alive Message.initialRefCount)

/-! ## BlockMessage (src/yojimbo_message.h lines 81-140) -/

/-- From src/yojimbo_message.h: the fields of `BlockMessage` that govern block
ownership. The allocator pointer and the block-data pointer are modelled as
optional identifiers (`none` is the C++ null pointer); `blockSize` is the
C++ `int` field. -/
structure BlockMessage where
  allocator : Option Nat
  blockData : Option Nat
  blockSize : Int
deriving DecidableEq, Repr

/-- From src/yojimbo_message.h line 85: the `BlockMessage` constructor sets
`m_allocator(NULL), m_blockData(NULL), m_blockSize(0)`. -/
def BlockMessage.init : BlockMessage := ⟨none, none, 0⟩

/-- From src/yojimbo_message.h lines 98-107 (`AttachBlock`): stores the
allocator, the data pointer and the size. -/
def BlockMessage.attachBlock (m : BlockMessage) (alloc dataPtr : Nat) (size : Int) :
    BlockMessage :=
  { m with allocator := some alloc, blockData := some dataPtr, blockSize := size }

/-- From src/yojimbo_message.h lines 109-114 (`DetachBlock`): nulls the
allocator and data pointers and zeroes the size. -/
def BlockMessage.detachBlock (_ : BlockMessage) : BlockMessage := ⟨none, none, 0⟩

/-- From src/yojimbo_message.h line 121 (`GetBlockData`). -/
def BlockMessage.getBlockData (m : BlockMessage) : Option Nat := m.blockData

/-- From src/yojimbo_message.h line 126 (`GetBlockSize`). -/
def BlockMessage.getBlockSize (m : BlockMessage) : Int := m.blockSize

/-- From src/yojimbo_message.h lines 87-96 (`~BlockMessage`): if the allocator
pointer is set, the destructor frees the block data through it; the result
records the free that the destructor performs (`none` when it frees
nothing). -/
def BlockMessage.destructorFrees (m : BlockMessage) : Option (Nat × Option Nat) :=
  match m.allocator with
  | some a => some (a, m.blockData)
  | none => none

/-! ## Allocator and MessageFactory handles -/

/-- Modelled from the spec: the allocator interface (yojimbo_allocator.h is not
in src). Only the observable outcome of one allocation request is needed:
`ok n` tells whether a request for an array of `n` channel entries returns
memory (`false` is the null return, the OutOfMemory case of §7). -/
structure Allocator where
  ok : Nat → Bool

/-- The part of `MessageFactory` (src/yojimbo_message.h lines 142-240) that the
connection code consumes: the allocator it carries and the number of message
types. -/
structure MessageFactory where
  allocator : Allocator
  numTypes : Nat

/-- From src/yojimbo_message.h lines 229-233 (`MessageFactory::GetAllocator`). -/
def MessageFactory.getAllocator (f : MessageFactory) : Allocator := f.allocator

/-! ## ChannelPacketData and ConnectionPacket (src/yojimbo_connection.cpp) -/

/-- Modelled from the spec: `ChannelPacketData` (§3); the channel sources are
not in src. It carries the channel id, the block-versus-messages
discriminator, the failed-to-serialize flag, and the payload abstracted to
the list of message references (message ids) it holds. -/
structure ChannelPacketData where
  channelId : Nat
  blockMessage : Bool
  messageFailedToSerialize : Bool
  messageIds : List Nat
deriving DecidableEq, Repr

/-- Modelled from the spec: `ChannelPacketData::Initialize` (called from
src/yojimbo_connection.cpp line 130; the channel sources are not in src)
zero-initializes an entry. -/
def ChannelPacketData.zeroed : ChannelPacketData := ⟨0, false, false, []⟩

/-- From src/yojimbo_connection.cpp lines 36-41: the fields of
`ConnectionPacket`. `channelEntry` is the entry array (`none` is the C++
null pointer) and `messageFactory` the cached factory pointer. -/
structure ConnectionPacket where
  numChannelEntries : Nat
  channelEntry : Option (List ChannelPacketData)
  messageFactory : Option MessageFactory

/-- From src/yojimbo_connection.cpp lines 104-109: the `ConnectionPacket`
constructor nulls the factory and entry pointers and zeroes the count. -/
def ConnectionPacket.init : ConnectionPacket := ⟨0, none, none⟩

/-- From src/yojimbo_connection.cpp lines 119-134
(`ConnectionPacket::AllocateChannelData`): caches the factory pointer, takes
the factory's allocator, requests the entry array; on a null return the
method returns `false` (leaving `numChannelEntries` untouched); on success
it initializes every entry and sets `numChannelEntries`. -/
def ConnectionPacket.allocateChannelData (p : ConnectionPacket)
    (factory : MessageFactory) (numEntries : Nat) : ConnectionPacket × Bool :=
  let p2 := { p with messageFactory := some factory }
  if factory.getAllocator.ok numEntries then
    ({ p2 with
        channelEntry := some (List.replicate numEntries ChannelPacketData.zeroed),
        numChannelEntries := numEntries }, true)
  else
    ({ p2 with channelEntry := none }, false)

/-- The message references a packet's channel entries hold: the ids carried by
the first `numChannelEntries` entries of the entry array. -/
def ConnectionPacket.heldMessageRefs (p : ConnectionPacket) : List Nat :=
  match p.channelEntry with
  | none => []
  | some entries => (entries.take p.numChannelEntries).foldl
      (fun acc e => acc ++ e.messageIds) []

/-- From src/yojimbo_connection.cpp lines 111-117 (`~ConnectionPacket`): the
destructor body performs no release of any message reference (its body is a
`todo` comment); the result lists the message references the destructor
releases, which is always empty. -/
def ConnectionPacket.destructorReleases (_ : ConnectionPacket) : List Nat := []

/-! ## WriteStream (modelled from the spec, §4.1) -/

/-- Modelled from the spec: `WriteStream` (§4.1); the stream sources are not in
src. Only the bit accounting is needed: the buffer capacity in bytes and
the number of bits written so far. Every write past the end of the buffer
fails. -/
structure WriteStream where
  capacityBytes : Nat
  bitsProcessed : Nat
deriving DecidableEq, Repr

/-- A fresh write stream over a buffer of `bufferSize` bytes
(src/yojimbo_connection.cpp line 234). -/
def WriteStream.mkStream (bufferSize : Nat) : WriteStream := ⟨bufferSize, 0⟩

/-- Modelled from the spec: append `n` bits to the stream, failing when that
would pass the end of the buffer (§4.1: any write past end fails). -/
def WriteStream.writeRaw (s : WriteStream) (n : Nat) : Option WriteStream :=
  if s.bitsProcessed + n ≤ 8 * s.capacityBytes then
    some ⟨s.capacityBytes, s.bitsProcessed + n⟩
  else none

/-- Modelled from the spec (§4.1): `serializeBits(value, n)` writes `n ∈ [1,32]`
bits. -/
def WriteStream.serializeBits (s : WriteStream) (n : Nat) : Option WriteStream :=
  if 1 ≤ n ∧ n ≤ 32 then s.writeRaw n else none

/-- Bits needed to reach the next byte boundary. -/
def WriteStream.alignBits (s : WriteStream) : Nat := (8 - s.bitsProcessed % 8) % 8

/-- Modelled from the spec (§4.1): `serializeAlign` inserts up to 7 zero bits to
reach a byte boundary. -/
def WriteStream.serializeAlign (s : WriteStream) : Option WriteStream :=
  s.writeRaw s.alignBits

/-- Modelled from the spec (§4.1): `serializeBytes(data, n)` aligns to a byte
boundary then writes `n` raw bytes. -/
def WriteStream.serializeBytes (s : WriteStream) (n : Nat) : Option WriteStream :=
  s.serializeAlign.bind (fun s2 => s2.writeRaw (8 * n))

/-- Modelled from the spec (§4.1, §6): `serializeCheck` writes a 32-bit magic
after alignment. -/
def WriteStream.serializeMagic (s : WriteStream) : Option WriteStream :=
  s.serializeAlign.bind (fun s2 => s2.writeRaw 32)

/-- Modelled from the spec (§4.1): `GetBytesProcessed` rounds the bit count up
to whole bytes. -/
def WriteStream.getBytesProcessed (s : WriteStream) : Nat := (s.bitsProcessed + 7) / 8

/-- One primitive serialization step of the packet serializer, abstracting the
serialize routines whose sources are not in src. -/
inductive StreamOp
  | bits (n : Nat)
  | bytes (n : Nat)
  | align
  | magic
deriving DecidableEq, Repr

/-- Run one primitive serialization step on a write stream. -/
def WriteStream.runOp (s : WriteStream) : StreamOp → Option WriteStream
  | .bits n => s.serializeBits n
  | .bytes n => s.serializeBytes n
  | .align => s.serializeAlign
  | .magic => s.serializeMagic

/-- Run a serialization program on a write stream; the first failing step fails
the whole serialization. -/
def WriteStream.run : WriteStream → List StreamOp → Option WriteStream
  | s, [] => some s
  | s, op :: rest =>
    match s.runOp op with
    | none => none
    | some s2 => WriteStream.run s2 rest

/-- From src/yojimbo_connection.cpp lines 232-253 (`WritePacket`): serialize the
packet (abstracted to its serialization program `ops`) into a write stream
over a buffer of `bufferSize` bytes; if serialization or the trailing
`SerializeCheck` fails, return 0; otherwise flush and return the bytes
processed. -/
def WritePacket (ops : List StreamOp) (bufferSize : Nat) : Nat :=
  match (WriteStream.mkStream bufferSize).run ops with
  | none => 0
  | some s =>
    match s.serializeMagic with
    | none => 0
    | some s2 => s2.getBytesProcessed

/-! ## Channels and the Connection operations (src/yojimbo_connection.cpp) -/

/-- Modelled from the spec: the channel contract (§2, §4.2, §4.3); the channel
sources are not in src. Only the observables the connection code touches
are kept: the channel's error code (`0` is `CHANNEL_ERROR_NONE`) and its
response to `GetPacketData(data, packetSequence, availableBits)`, returning
the payload bit count and the filled `ChannelPacketData`. -/
structure Channel where
  error : Nat
  getPacketData : Nat → Int → Int × ChannelPacketData

instance : Inhabited Channel :=
  ⟨⟨0, fun _ _ => (0, ChannelPacketData.zeroed)⟩⟩

/-- The part of `ConnectionConfig` (yojimbo_config.h, not in src; spec §3) the
connection code reads: the number of channels. -/
structure ConnectionConfig where
  numChannels : Nat
deriving DecidableEq, Repr

/-- From src/yojimbo_connection.cpp lines 268-286: the channel budget loop of
`Connection::GeneratePacket`. Starting from the available bit budget, each
channel in id order is asked for packet data; a channel contributing more
than zero bits has the conservative channel header estimate plus its
payload bits subtracted from the budget and its data recorded. Returns the
remaining budget and the contributions in channel-id order. -/
def Connection.channelBudgetLoop (channels : List Channel) (numChannels : Nat)
    (packetSequence : Nat) (chanHeaderEstimate : Nat) (startBits : Int) :
    Int × List (Nat × ChannelPacketData) :=
  (List.range numChannels).foldl
    (fun acc channelId =>
      let result := (channels.getD channelId default).getPacketData packetSequence acc.1
      if 0 < result.1 then
        (acc.1 - chanHeaderEstimate - result.1, acc.2 ++ [(channelId, result.2)])
      else acc)
    (startBits, [])

/-- From src/yojimbo_connection.cpp lines 255-308: the packet-assembly phase of
`Connection::GeneratePacket`. If any channel contributes data, the channel
entry array is allocated through the message factory; a null allocation
aborts with `none` (the `return false` at line 294); otherwise the
contributed entries are copied into the packet in channel-id order. -/
def Connection.assemblePacket (cfg : ConnectionConfig) (channels : List Channel)
    (factory : MessageFactory) (packetSequence : Nat) (maxPacketBytes : Nat)
    (connHeaderEstimate chanHeaderEstimate : Nat) : Option ConnectionPacket :=
  if 0 < cfg.numChannels then
    if 0 < (Connection.channelBudgetLoop channels cfg.numChannels packetSequence
        chanHeaderEstimate
        ((maxPacketBytes : Int) * 8 - (connHeaderEstimate : Int))).2.length then
      if (ConnectionPacket.init.allocateChannelData factory
          (Connection.channelBudgetLoop channels cfg.numChannels packetSequence
            chanHeaderEstimate
            ((maxPacketBytes : Int) * 8 - (connHeaderEstimate : Int))).2.length).2 then
        some { (ConnectionPacket.init.allocateChannelData factory
            (Connection.channelBudgetLoop channels cfg.numChannels packetSequence
              chanHeaderEstimate
              ((maxPacketBytes : Int) * 8 - (connHeaderEstimate : Int))).2.length).1 with
          channelEntry := some ((Connection.channelBudgetLoop channels cfg.numChannels
            packetSequence chanHeaderEstimate
            ((maxPacketBytes : Int) * 8 - (connHeaderEstimate : Int))).2.map Prod.snd) }
      else none
    else some ConnectionPacket.init
  else some ConnectionPacket.init

/-- From src/yojimbo_connection.cpp lines 255-313 (`Connection::GeneratePacket`):
assemble the packet, then write it with `WritePacket` into the buffer of
`maxPacketBytes` bytes and report the byte count through the out
parameter. `none` is the `return false` of the allocation-failure path
(the out parameter is then never written); `some n` is a `true` return
with `packetBytes = n`. The packet's serialization program is abstracted by
`serOps` since the channel serialize routines are not in src. -/
def Connection.generatePacket (cfg : ConnectionConfig) (channels : List Channel)
    (factory : MessageFactory) (serOps : ConnectionPacket → List StreamOp)
    (packetSequence : Nat) (maxPacketBytes : Nat)
    (connHeaderEstimate chanHeaderEstimate : Nat) : Option Nat :=
  (Connection.assemblePacket cfg channels factory packetSequence maxPacketBytes
      connHeaderEstimate chanHeaderEstimate).map
    (fun packet => WritePacket (serOps packet) maxPacketBytes)

/-- Calls the connection code could make on its collaborators while processing
a packet; used to observe what `Connection::ProcessPacket` actually does. -/
inductive ConnEvent
  | processAcksCall (ack : Nat) (ackBits : Nat)
  | channelProcessPacketData (channelId : Nat) (packetSequence : Nat)
  | staleCounterIncrement
deriving DecidableEq, Repr

/-- From src/yojimbo_connection.cpp lines 315-324 (`Connection::ProcessPacket`):
the body casts every argument to void and returns `true` (the
deserialization and the channel dispatch are `todo` comments). The result
carries the unchanged channel states, the (empty) list of calls the body
makes, and the return value. -/
def Connection.processPacket (channels : List Channel) (_packetSequence : Nat)
    (_packetData : List Nat) (_packetBytes : Nat) :
    (List Channel × List ConnEvent) × Bool :=
  ((channels, []), true)

/-- From src/yojimbo_connection.cpp lines 326-335 (`Connection::ProcessAcks`):
for each entry of the `acks` array in order, every channel's `ProcessAck`
is invoked with that sequence, unconditionally. The result is the list of
`(channelId, sequence)` invocations in order. -/
def Connection.processAcks (numChannels : Nat) (acks : List Nat) : List (Nat × Nat) :=
  acks.flatMap (fun a => (List.range numChannels).map (fun c => (c, a)))

/-- From src/yojimbo_connection.cpp lines 337-353 (`Connection::AdvanceTime`):
forwards the time to each channel; the channel-error check that would move
the connection into an errored state is commented out (`todo`), so nothing
else happens. The channel transition is abstracted by `chAdvance` since
the channel sources are not in src; time is passed through opaquely and is
modelled as an integer. -/
def Connection.advanceTime (chAdvance : Channel → Int → Channel)
    (channels : List Channel) (t : Int) : List Channel :=
  channels.map (fun c => chAdvance c t)

/-! ## Concrete fixtures used to evaluate the model -/

/-- A message factory whose allocator always returns memory. -/
def okFactory : MessageFactory := ⟨⟨fun _ => true⟩, 1⟩

/-- A message factory whose allocator always returns null (OutOfMemory). -/
def failFactory : MessageFactory := ⟨⟨fun _ => false⟩, 1⟩

/-- A channel with no error that never has data to send. -/
def quietChannel : Channel := ⟨0, fun _ _ => (0, ChannelPacketData.zeroed)⟩

/-- A channel with no error that always offers 8 bits of payload. -/
def contribChannel : Channel := ⟨0, fun _ _ => (8, ChannelPacketData.zeroed)⟩

/-- A channel-time transition under which the channel reports unrecoverable
error 1 after any `AdvanceTime`. -/
def erroringAdvance : Channel → Int → Channel :=
  fun c _ => { c with error := 1 }

/-- A connection packet holding one channel entry that references message 42. -/
def packetHolding42 : ConnectionPacket :=
  ⟨1, some [⟨0, false, false, [42]⟩], some okFactory⟩

/-! ## WriteStream bookkeeping lemmas -/

theorem WriteStream.writeRaw_bound {s s2 : WriteStream} {n : Nat}
    (h : s.writeRaw n = some s2) :
    s2.bitsProcessed ≤ 8 * s2.capacityBytes ∧ s2.capacityBytes = s.capacityBytes := by
  unfold WriteStream.writeRaw at h
  split at h
  · cases h
    exact ⟨by assumption, rfl⟩
  · cases h

theorem WriteStream.runOp_bound {s s2 : WriteStream} {op : StreamOp}
    (h : s.runOp op = some s2) :
    s2.bitsProcessed ≤ 8 * s2.capacityBytes ∧ s2.capacityBytes = s.capacityBytes := by
  cases op with
  | bits n =>
    simp only [WriteStream.runOp, WriteStream.serializeBits] at h
    split at h
    · exact WriteStream.writeRaw_bound h
    · cases h
  | bytes n =>
    simp only [WriteStream.runOp, WriteStream.serializeBytes,
      WriteStream.serializeAlign] at h
    rcases Option.bind_eq_some.mp h with ⟨smid, hmid, hfin⟩
    have h1 := WriteStream.writeRaw_bound hmid
    have h2 := WriteStream.writeRaw_bound hfin
    exact ⟨h2.1, h2.2.trans h1.2⟩
  | align =>
    simp only [WriteStream.runOp, WriteStream.serializeAlign] at h
    exact WriteStream.writeRaw_bound h
  | magic =>
    simp only [WriteStream.runOp, WriteStream.serializeMagic,
      WriteStream.serializeAlign] at h
    rcases Option.bind_eq_some.mp h with ⟨smid, hmid, hfin⟩
    have h1 := WriteStream.writeRaw_bound hmid
    have h2 := WriteStream.writeRaw_bound hfin
    exact ⟨h2.1, h2.2.trans h1.2⟩

theorem WriteStream.run_bound : ∀ (ops : List StreamOp) (s s2 : WriteStream),
    WriteStream.run s ops = some s2 →
    s.bitsProcessed ≤ 8 * s.capacityBytes →
    s2.bitsProcessed ≤ 8 * s2.capacityBytes ∧ s2.capacityBytes = s.capacityBytes := by
  intro ops
  induction ops with
  | nil =>
    intro s s2 h hs
    unfold WriteStream.run at h
    cases h
    exact ⟨hs, rfl⟩
  | cons op rest ih =>
    intro s s2 h hs
    unfold WriteStream.run at h
    cases hop : s.runOp op with
    | none => rw [hop] at h; cases h
    | some smid =>
      rw [hop] at h
      have h1 := WriteStream.runOp_bound hop
      have h2 := ih smid s2 h h1.1
      exact ⟨h2.1, h2.2.trans h1.2⟩

theorem WriteStream.getBytesProcessed_le {s : WriteStream}
    (h : s.bitsProcessed ≤ 8 * s.capacityBytes) :
    s.getBytesProcessed ≤ s.capacityBytes := by
  unfold WriteStream.getBytesProcessed
  have hlt : s.bitsProcessed + 7 < (s.capacityBytes + 1) * 8 := by omega
  have := (Nat.div_lt_iff_lt_mul (by norm_num : 0 < 8)).mpr hlt
  omega

/-- The byte count `WritePacket` reports never exceeds the buffer size. -/
theorem WritePacket_le (ops : List StreamOp) (bufferSize : Nat) :
    WritePacket ops bufferSize ≤ bufferSize := by
  unfold WritePacket
  cases hrun : (WriteStream.mkStream bufferSize).run ops with
  | none => simp
  | some s =>
    cases hmagic : s.serializeMagic with
    | none => dsimp only; rw [hmagic]; simp
    | some s2 =>
      dsimp only
      rw [hmagic]
      have h1 := WriteStream.run_bound ops _ s hrun (by simp [WriteStream.mkStream])
      have hcapInit : (WriteStream.mkStream bufferSize).capacityBytes = bufferSize := rfl
      unfold WriteStream.serializeMagic WriteStream.serializeAlign at hmagic
      rcases Option.bind_eq_some.mp hmagic with ⟨smid, hmid, hfin⟩
      have h2 := WriteStream.writeRaw_bound hmid
      have h3 := WriteStream.writeRaw_bound hfin
      have hcap : s2.capacityBytes = bufferSize := by
        rw [h3.2, h2.2, h1.2, hcapInit]
      calc s2.getBytesProcessed ≤ s2.capacityBytes :=
            WriteStream.getBytesProcessed_le h3.1
        _ = bufferSize := hcap

/-! ## Reference-count bookkeeping lemma -/

theorem refOps_foldl_alive (ops : List RefOp) : ∀ rc : Int,
    (∀ i, i ≤ ops.length → 0 < rc + refDelta (ops.take i)) →
    List.foldl MsgState.step (MsgState.alive rc) ops = .alive (rc + refDelta ops) := by
  induction ops with
  | nil =>
    intro rc _
    simp [refDelta]
  | cons op rest ih =>
    intro rc h
    cases op with
    | addRef =>
      have hstep : MsgState.step (MsgState.alive rc) RefOp.addRef
          = MsgState.alive (rc + 1) := rfl
      have hrest : ∀ i, i ≤ rest.length → 0 < (rc + 1) + refDelta (rest.take i) := by
        intro i hi
        have := h (i + 1) (by simpa using Nat.succ_le_succ hi)
        simp only [List.take_succ_cons, refDelta, RefOp.delta] at this
        omega
      have := ih (rc + 1) hrest
      simp only [List.foldl, hstep, this, refDelta, RefOp.delta]
      congr 1
      omega
    | release =>
      have hpos : 0 < rc - 1 := by
        have := h 1 (by simp)
        simp only [List.take_succ_cons, List.take_zero, refDelta, RefOp.delta] at this
        omega
      have hne : ¬(rc - 1 = 0) := by omega
      have hstep : MsgState.step (MsgState.alive rc) RefOp.release
          = MsgState.alive (rc - 1) := by
        simp [MsgState.step, MessageFactory.releaseCount, hne]
      have hrest : ∀ i, i ≤ rest.length → 0 < (rc - 1) + refDelta (rest.take i) := by
        intro i hi
        have := h (i + 1) (by simpa using Nat.succ_le_succ hi)
        simp only [List.take_succ_cons, refDelta, RefOp.delta] at this
        omega
      have := ih (rc - 1) hrest
      simp only [List.foldl, hstep, this, refDelta, RefOp.delta]
      congr 1
      omega

/-! ## Claim theorems -/

/-- Claim C1 (code bug evidence): the active `Connection::ProcessPacket` ignores
its packet entirely. At a packet carrying sequence 7 and three bytes of
data, it extracts no ack, makes no `ProcessAcks` call, dispatches no
channel entry to any channel, and returns true with channel state
unchanged. -/
theorem processPacket_no_ack_no_dispatch :
    Connection.processPacket [quietChannel] 7 [1, 2, 3] 3 =
      (([quietChannel], ([] : List ConnEvent)), true) := rfl

/-- Claim C3 (code bug evidence): the active `Connection::ProcessPacket` never
detects a stale sequence: at a packet whose sequence number 0 is below any
received-window floor it still returns true, increments no stale counter,
and leaves no trace of a drop. -/
theorem processPacket_stale_not_dropped :
    Connection.processPacket [quietChannel] 0 [9] 1 =
      (([quietChannel], ([] : List ConnEvent)), true) := rfl

/-- Claim C4 (code bug evidence): the active `Connection::ProcessAcks` invokes
each channel's `ProcessAck` unconditionally for every entry of the ack
array: with the duplicated ack array `[5, 5]` and one channel, channel 0's
`ProcessAck(5)` is invoked twice, with no sent-packets lookup and no
acked marking anywhere. -/
theorem processAcks_unconditional_double_invocation :
    Connection.processAcks 1 [5, 5] = [(0, 5), (0, 5)] := rfl

/-- Claim C5 (code bug evidence): a `ConnectionPacket` whose single channel
entry holds a reference to message 42 releases none of its message
references when destroyed: the destructor body is empty (a todo comment),
contradicting its own doc comment. -/
theorem connectionPacket_destructor_releases_nothing :
    packetHolding42.heldMessageRefs = [42] ∧
    packetHolding42.destructorReleases = [] := ⟨rfl, rfl⟩

/-- Claim C7 (code bug evidence): after `Connection::AdvanceTime` leaves a
channel reporting unrecoverable error 1, `Connection::GeneratePacket` still
generates a packet (returns true with a written byte count) instead of
refusing: the connection never transitions to an errored state because the
error check in AdvanceTime is commented out and GeneratePacket checks no
error. -/
theorem generatePacket_ignores_channel_errors :
    (Connection.advanceTime erroringAdvance [quietChannel] 10).map Channel.error = [1] ∧
    Connection.generatePacket ⟨1⟩
      (Connection.advanceTime erroringAdvance [quietChannel] 10)
      okFactory (fun _ => []) 0 100 128 32 = some 4 := ⟨rfl, rfl⟩

/-- Claim C2: every byte count `Connection::GeneratePacket` reports is at most
`maxPacketBytes`, for any channel behavior, any serialization program of
the assembled packet, and any header-estimate constants: the write stream
over the `maxPacketBytes` buffer can never report more bytes than its
capacity. -/
theorem generatePacket_respects_budget (cfg : ConnectionConfig)
    (channels : List Channel) (factory : MessageFactory)
    (serOps : ConnectionPacket → List StreamOp)
    (packetSequence maxPacketBytes connHeaderEstimate chanHeaderEstimate n : Nat)
    (h : Connection.generatePacket cfg channels factory serOps packetSequence
      maxPacketBytes connHeaderEstimate chanHeaderEstimate = some n) :
    n ≤ maxPacketBytes := by
  unfold Connection.generatePacket at h
  rcases Option.map_eq_some'.mp h with ⟨packet, _, hn⟩
  rw [← hn]
  exact WritePacket_le _ _

/-- Witness for C2 at a concrete connection with no channels and a 4-byte
buffer: the generated packet reports 4 bytes, within the budget. -/
theorem generatePacket_respects_budget_witness :
    Connection.generatePacket ⟨0⟩ [] okFactory (fun _ => []) 0 4 0 0 = some 4 ∧
    4 ≤ 4 :=
  ⟨rfl, generatePacket_respects_budget ⟨0⟩ [] okFactory (fun _ => []) 0 4 0 0 4 rfl⟩

/-- Claim C6: `AllocateChannelData` allocates the entry array with the message
factory's allocator and returns false exactly when that allocator returns
null, leaving `numChannelEntries` at its initial 0; on success it
initializes all `n` entries and sets `numChannelEntries = n`; and when the
allocation fails during `GeneratePacket` (the budget loop selected at least
one channel and the allocator refuses that count), the packet is dropped:
`GeneratePacket` returns false. -/
theorem allocateChannelData_spec (factory : MessageFactory) (n : Nat) :
    (((ConnectionPacket.init.allocateChannelData factory n).2 = false) ↔
      factory.getAllocator.ok n = false) ∧
    ((ConnectionPacket.init.allocateChannelData factory n).2 = false →
      (ConnectionPacket.init.allocateChannelData factory n).1.numChannelEntries = 0) ∧
    ((ConnectionPacket.init.allocateChannelData factory n).2 = true →
      (ConnectionPacket.init.allocateChannelData factory n).1.numChannelEntries = n ∧
      (ConnectionPacket.init.allocateChannelData factory n).1.channelEntry =
        some (List.replicate n ChannelPacketData.zeroed)) ∧
    (∀ (cfg : ConnectionConfig) (channels : List Channel)
      (serOps : ConnectionPacket → List StreamOp)
      (packetSequence maxPacketBytes connHeaderEstimate chanHeaderEstimate : Nat),
      n = (Connection.channelBudgetLoop channels cfg.numChannels packetSequence
        chanHeaderEstimate
        ((maxPacketBytes : Int) * 8 - (connHeaderEstimate : Int))).2.length →
      0 < n →
      factory.getAllocator.ok n = false →
      Connection.generatePacket cfg channels factory serOps packetSequence
        maxPacketBytes connHeaderEstimate chanHeaderEstimate = none) := by
  constructor
  · unfold ConnectionPacket.allocateChannelData
    cases hok : factory.getAllocator.ok n <;> simp [hok]
  constructor
  · intro hfail
    unfold ConnectionPacket.allocateChannelData at hfail ⊢
    cases hok : factory.getAllocator.ok n
    · simp [hok, ConnectionPacket.init]
    · simp [hok] at hfail
  constructor
  · intro hsucc
    unfold ConnectionPacket.allocateChannelData at hsucc ⊢
    cases hok : factory.getAllocator.ok n
    · simp [hok] at hsucc
    · simp [hok]
  · intro cfg channels serOps packetSequence maxPacketBytes che1 che2 hn hpos hfail
    have hch : 0 < cfg.numChannels := by
      rcases Nat.eq_zero_or_pos cfg.numChannels with h0 | h
      · rw [h0] at hn
        simp [Connection.channelBudgetLoop] at hn
        omega
      · exact h
    unfold Connection.generatePacket Connection.assemblePacket
    rw [if_pos hch, if_pos (hn ▸ hpos)]
    have halloc : (ConnectionPacket.init.allocateChannelData factory
        (Connection.channelBudgetLoop channels cfg.numChannels packetSequence che2
          ((maxPacketBytes : Int) * 8 - (che1 : Int))).2.length).2 = false := by
      unfold ConnectionPacket.allocateChannelData
      rw [← hn]
      simp [hfail]
    simp [halloc]

/-- Witness for C6 at a factory whose allocator always returns null: the
allocation fails, `numChannelEntries` stays 0, and a connection whose one
channel contributes data drops the packet. -/
theorem allocateChannelData_spec_witness :
    (((ConnectionPacket.init.allocateChannelData failFactory 2).2 = false) ↔
      failFactory.getAllocator.ok 2 = false) ∧
    (ConnectionPacket.init.allocateChannelData failFactory 2).1.numChannelEntries = 0 ∧
    Connection.generatePacket ⟨1⟩ [contribChannel] failFactory (fun _ => [])
      0 100 0 0 = none := by
  refine ⟨(allocateChannelData_spec failFactory 2).1, ?_, ?_⟩
  · exact (allocateChannelData_spec failFactory 2).2.1 (by decide)
  · exact (allocateChannelData_spec failFactory 1).2.2.2 ⟨1⟩ [contribChannel]
      (fun _ => []) 0 100 0 0 (by decide) (by decide) (by decide)

/-- Claim C8: a message produced by `MessageFactory::Create` has reference
count exactly 1; `AddRef` increments the count by 1; `Release` decrements
it by 1 and deallocates the message exactly when the count reaches zero;
and any sequence of AddRef/Release calls that keeps the count positive
leaves the message alive. -/
theorem message_refCount_lifecycle :
    Message.initialRefCount = 1 ∧
    (∀ rc : Int, MessageFactory.addRefCount rc = rc + 1) ∧
    (∀ rc : Int, (MessageFactory.releaseCount rc).1 = rc - 1 ∧
      ((MessageFactory.releaseCount rc).2 = true ↔ rc - 1 = 0) ∧
      MsgState.step (MsgState.alive rc) RefOp.release =
        (if rc - 1 = 0 then MsgState.freed else MsgState.alive (rc - 1))) ∧
    (∀ ops : List RefOp,
      (∀ i, i ≤ ops.length → 0 < Message.initialRefCount + refDelta (ops.take i)) →
      runRefOps ops = MsgState.alive (Message.initialRefCount + refDelta ops)) := by
  refine ⟨rfl, fun _ => rfl, fun rc => ⟨rfl, by simp [MessageFactory.releaseCount], ?_⟩,
    fun ops h => refOps_foldl_alive ops Message.initialRefCount h⟩
  by_cases hz : rc - 1 = 0 <;>
    simp [MsgState.step, MessageFactory.releaseCount, hz]

/-- Witness for C8 at the call sequence AddRef then Release starting from a
freshly created message: the count stays positive, so the message stays
alive with count 1. -/
theorem message_refCount_lifecycle_witness :
    runRefOps [RefOp.addRef, RefOp.release] = MsgState.alive 1 := by
  have h := message_refCount_lifecycle.2.2.2 [RefOp.addRef, RefOp.release] (by decide)
  simpa [Message.initialRefCount, refDelta, RefOp.delta] using h

/-- Claim C9: a `BlockMessage` owns its attached buffer until detached or
released: after `AttachBlock(allocator, data, size)` the destructor frees
the buffer through that allocator; after `DetachBlock`, `GetBlockData`
returns null, `GetBlockSize` returns 0, and the destructor frees nothing. -/
theorem blockMessage_block_ownership :
    (∀ (m : BlockMessage) (alloc dataPtr : Nat) (size : Int),
      (m.attachBlock alloc dataPtr size).destructorFrees = some (alloc, some dataPtr)) ∧
    (∀ m : BlockMessage,
      m.detachBlock.getBlockData = none ∧
      m.detachBlock.getBlockSize = 0 ∧
      m.detachBlock.destructorFrees = none) :=
  ⟨fun _ _ _ _ => rfl, fun _ => ⟨rfl, rfl, rfl⟩⟩

/-- Claim C10: when serialization of the assembled packet fails inside
`Connection::GeneratePacket` (`WritePacket` returns 0, including when the
trailing serialize check cannot be written), `GeneratePacket` still returns
true with a reported byte count of 0; a false return occurs exactly on
channel-data allocation failure. -/
theorem generatePacket_true_on_serialize_failure (cfg : ConnectionConfig)
    (channels : List Channel) (factory : MessageFactory)
    (serOps : ConnectionPacket → List StreamOp)
    (packetSequence maxPacketBytes connHeaderEstimate chanHeaderEstimate : Nat) :
    (∀ packet, Connection.assemblePacket cfg channels factory packetSequence
        maxPacketBytes connHeaderEstimate chanHeaderEstimate = some packet →
      WritePacket (serOps packet) maxPacketBytes = 0 →
      Connection.generatePacket cfg channels factory serOps packetSequence
        maxPacketBytes connHeaderEstimate chanHeaderEstimate = some 0) ∧
    (Connection.generatePacket cfg channels factory serOps packetSequence
        maxPacketBytes connHeaderEstimate chanHeaderEstimate = none ↔
      Connection.assemblePacket cfg channels factory packetSequence
        maxPacketBytes connHeaderEstimate chanHeaderEstimate = none) ∧
    (Connection.assemblePacket cfg channels factory packetSequence
        maxPacketBytes connHeaderEstimate chanHeaderEstimate = none →
      (ConnectionPacket.init.allocateChannelData factory
        (Connection.channelBudgetLoop channels cfg.numChannels packetSequence
          chanHeaderEstimate
          ((maxPacketBytes : Int) * 8 - (connHeaderEstimate : Int))).2.length).2
        = false) := by
  refine ⟨?_, ?_, ?_⟩
  · intro packet hp hw
    unfold Connection.generatePacket
    rw [hp]
    simp [hw]
  · unfold Connection.generatePacket
    simp
  · intro hnone
    unfold Connection.assemblePacket at hnone
    split at hnone
    · split at hnone
      · split at hnone
        · cases hnone
        · exact eq_false_of_ne_true (by assumption)
      · cases hnone
    · cases hnone

/-- Witness for C10 at a connection with no channels and a zero-byte buffer:
the trailing serialize check cannot be written, `WritePacket` reports 0,
and `GeneratePacket` still returns true with byte count 0. -/
theorem generatePacket_true_on_serialize_failure_witness :
    Connection.generatePacket ⟨0⟩ [] okFactory (fun _ => []) 0 0 0 0 = some 0 :=
  (generatePacket_true_on_serialize_failure ⟨0⟩ [] okFactory (fun _ => []) 0 0 0 0).1
    ConnectionPacket.init rfl rfl

end Yojimbo
